import Mathlib

/-!
Verification of the soylatte markdown documentation server (`src/server.js`).

The repository holds two concatenated revisions of `server.js`.  Both embed a
client-side live-reload script (`socket.onmessage` inside `generateHtml`), a
chokidar change watcher with a WebSocket fan-out, and an HTTP request handler
that resolves request paths against the served root.  All of the interesting
logic is pure string manipulation over the view identifier, the changed path
and the request path; we embed it shallowly over Lean `String`s (JavaScript
string primitives are modelled by list operations over `String.toList`, which
agrees with the JS semantics on the Unicode-BMP/ASCII paths at play).
-/

namespace Soylatte

/-! ### Models of the JavaScript string primitives used by server.js -/

/-- Model of JavaScript `s.startsWith(pat)`. -/
def jsStartsWith (s pat : String) : Bool :=
  pat.toList.isPrefixOf s.toList

/-- Model of JavaScript `s.endsWith(pat)`. -/
def jsEndsWith (s pat : String) : Bool :=
  pat.toList.isSuffixOf s.toList

/-- Model of JavaScript `s.includes(pat)` (substring containment). -/
def jsIncludes (s pat : String) : Bool :=
  decide (pat.toList <:+: s.toList)

/-- Model of JavaScript `s.substring(n)` (drop the first `n` code units). -/
def jsSubstringFrom (s : String) (n : Nat) : String :=
  String.mk (s.toList.drop n)

/-- Model of JavaScript `s.replace(/\/$/, "")`: strip one trailing slash. -/
def stripTrailingSlash (s : String) : String :=
  if jsEndsWith s "/" then String.mk s.toList.dropLast else s

/-! ### The view-match engines

`src/server.js` revision 1, `socket.onmessage` (lines 188–244): exact match,
then, at the root, reload when the changed path has no slash; in a
subdirectory, reload only when the changed path is a *direct child* of the
viewed directory (the remainder after the `V + "/"` marker contains no
further slash).  Revision 1 never tests whether the view is a markdown file:
the containment branch runs for every non-root view identifier. -/

/-- Revision 1 client reload decision: `matchRev1 currentViewPath dataPath`
is `true` iff the revision-1 `socket.onmessage` handler calls
`window.location.reload()` for an update whose `data.path` is `dataPath`
while the page's embedded view identifier is `currentViewPath`. -/
def matchRev1 (currentViewPath dataPath : String) : Bool :=
  if dataPath == currentViewPath then
    true
  else if currentViewPath == "" then
    !(jsIncludes dataPath "/")
  else
    let pre := currentViewPath ++ "/"
    if jsStartsWith dataPath pre then
      let remaining := jsSubstringFrom dataPath pre.length
      !(jsIncludes remaining "/")
    else
      false

/-- Revision 2 client reload decision (`socket.onmessage`, lines 537–563):
first strip one trailing slash from the embedded view path
(`currentViewPath.replace(/\/$/, "")`), reload on exact match, and otherwise,
when the current view does not contain `".md"`, reload whenever `data.path`
starts with `current + "/"` — with an empty tested marker when `current` is
empty, so every path matches at the root. -/
def matchRev2 (currentViewPath dataPath : String) : Bool :=
  let current := stripTrailingSlash currentViewPath
  if dataPath == current then
    true
  else if !(jsIncludes current ".md") then
    let pre := if current == "" then "" else current ++ "/"
    jsStartsWith dataPath pre
  else
    false

/-! ### Change watcher

Both revisions watch `DOCS_DIR` with chokidar and, for a recognised event
kind, broadcast `{ type: "update", path: relativePath, event }` where
`relativePath = path.relative(DOCS_DIR, filePath).split(path.sep).join("/")`.
Revision 1 (lines 74–88) recognises only `change`, `add` and `unlink`;
revision 2 (lines 395–416) additionally recognises `addDir` and
`unlinkDir`. -/

/-- The payload of one server→client update notification. -/
structure UpdateMsg where
  path : String
  event : String
deriving DecidableEq, Repr

/-- Models `path.relative(DOCS_DIR, fp).split(path.sep).join("/")` on a POSIX
host for a watched path of the form `root ++ "/" ++ rest`: drop the root and
the separator. -/
def relPath (root fp : String) : String :=
  jsSubstringFrom fp (root.length + 1)

/-- Revision 1 watcher: the notification broadcast for a chokidar event
`event` at absolute path `fp` under root `root`, or `none` when the event
kind is filtered out (`chokidar.watch(DOCS_DIR).on('all', ...)`, lines
74–88). -/
def watcherEmitRev1 (root event fp : String) : Option UpdateMsg :=
  if event == "change" || event == "add" || event == "unlink" then
    some { path := relPath root fp, event := event }
  else
    none

/-- Revision 2 watcher: as revision 1 but also forwarding `addDir` and
`unlinkDir` (lines 395–416). -/
def watcherEmitRev2 (root event fp : String) : Option UpdateMsg :=
  if event == "change" || event == "add" || event == "unlink"
      || event == "addDir" || event == "unlinkDir" then
    some { path := relPath root fp, event := event }
  else
    none

/-! ### Notification fan-out

Both revisions run `wss.clients.forEach(client => { if (client.readyState
=== WebSocket.OPEN) client.send(JSON.stringify({ type: 'update', path:
relativePath, event: event })); })`. -/

/-- The `ws` ready states. -/
inductive ReadyState where
  | CONNECTING
  | OPEN
  | CLOSING
  | CLOSED
deriving DecidableEq, Repr

/-- One connected WebSocket client, as the fan-out loop sees it. -/
structure Client where
  readyState : ReadyState
deriving DecidableEq, Repr

/-- `JSON.stringify({ type: 'update', path: relativePath, event: event })`
for field values free of characters JSON.stringify would escape
(`JSON.stringify` emits the keys in insertion order: `type`, `path`,
`event`). -/
def serializeUpdate (relativePath event : String) : String :=
  "\x7b\"type\":\"update\",\"path\":\"" ++ relativePath ++
    "\",\"event\":\"" ++ event ++ "\"\x7d"

/-- The fan-out loop: one slot per connected client, in order; an `OPEN`
client's slot holds the message sent to it, any other client's slot is
`none` (skipped, no error, no retry). -/
def deliverUpdate (clients : List Client) (relativePath event : String) :
    List (Option String) :=
  clients.map fun c =>
    if c.readyState = ReadyState.OPEN then
      some (serializeUpdate relativePath event)
    else
      none

/-! ### HTTP request handler (path resolution)

The resolution logic of `app.get(/.*/, ...)` is character-for-character
identical in the two revisions (revision 1 lines 264–337, revision 2 lines
583–677): reject any decoded request path containing `".."` with 403
before touching the filesystem, stat `path.join(DOCS_DIR, requestPath)`,
fall back to `candidate + ".md"` when the candidate is missing and does not
already end in `".md"`, 404 when nothing exists, and otherwise serve a
directory listing, rendered markdown, an image asset, or 403. -/

/-- What `fs.promises.stat` reports for an existing path. -/
inductive FsKind where
  | file
  | directory
  | special
deriving DecidableEq, Repr

/-- The handler's response, as far as the resolution logic determines it.
`directoryListing` and `markdownView` carry the view identifier embedded
into the generated page (`path.relative(DOCS_DIR, filePath)` in
forward-slash form); `markdownView` and `assetCheck` also carry the resolved
filesystem path whose content is served. -/
inductive Outcome where
  | forbidden
  | notFound
  | directoryListing (viewId : String)
  | markdownView (filePath : String) (viewId : String)
  | assetCheck (filePath : String)
  | noResponse
deriving DecidableEq, Repr

/-- Models `path.join(DOCS_DIR, requestPath)` for a decoded Express request
path, which always begins with `"/"` and — having survived the `".."`
check — contains no parent segments to normalise. -/
def pathJoin (root p : String) : String :=
  root ++ p

/-- Serving a resolved target: directory → listing with the directory's
relative path as view identifier; `.md` file → rendered markdown with the
file's relative path as view identifier; other file → image/mime check;
anything else falls through (the JS handler returns `undefined`). -/
def serveTarget (root filePath : String) (kind : FsKind) : Outcome :=
  match kind with
  | .directory => .directoryListing (relPath root filePath)
  | .file =>
      if jsEndsWith filePath ".md" then
        .markdownView filePath (relPath root filePath)
      else
        .assetCheck filePath
  | .special => .noResponse

/-- The request handler's resolution flow.  `fs` is the filesystem oracle
(`getStats`): `none` means the stat fails.  The second component lists, in
order, the paths the handler stats while resolving — the forbidden branch
performs none. -/
def handleRequest (root : String) (fs : String → Option FsKind)
    (requestPath : String) : Outcome × List String :=
  if jsIncludes requestPath ".." then
    (.forbidden, [])
  else
    let filePath := pathJoin root requestPath
    match fs filePath with
    | some kind => (serveTarget root filePath kind, [filePath])
    | none =>
        if !(jsEndsWith filePath ".md") then
          let mdPath := filePath ++ ".md"
          match fs mdPath with
          | some kind => (serveTarget root mdPath kind, [filePath, mdPath])
          | none => (.notFound, [filePath, mdPath])
        else
          (.notFound, [filePath])

/-! ### Basic lemmas about the string primitives -/

theorem toList_append (a b : String) :
    (a ++ b).toList = a.toList ++ b.toList := by
  simp [String.toList]

theorem jsStartsWith_iff {s pat : String} :
    jsStartsWith s pat = true ↔ pat.toList <+: s.toList := by
  simp [jsStartsWith, List.isPrefixOf_iff_prefix]

theorem jsEndsWith_iff {s pat : String} :
    jsEndsWith s pat = true ↔ pat.toList <:+ s.toList := by
  simp [jsEndsWith, List.isSuffixOf_iff_suffix]

theorem jsIncludes_iff {s pat : String} :
    jsIncludes s pat = true ↔ pat.toList <:+: s.toList := by
  simp [jsIncludes]

theorem jsStartsWith_empty (s : String) : jsStartsWith s "" = true := by
  rw [jsStartsWith_iff]
  exact ⟨s.toList, by simp⟩

theorem stripTrailingSlash_eq_self {s : String}
    (h : jsEndsWith s "/" = false) : stripTrailingSlash s = s := by
  simp [stripTrailingSlash, h]

/-- A string ending in `".md"` does not end in `"/"`. -/
theorem not_endsWith_slash_of_endsWith_md {s : String}
    (h : jsEndsWith s ".md" = true) : jsEndsWith s "/" = false := by
  rw [jsEndsWith_iff] at h
  obtain ⟨t, ht⟩ := h
  rw [Bool.eq_false_iff]
  intro hsl
  rw [jsEndsWith_iff] at hsl
  obtain ⟨u, hu⟩ := hsl
  have h1 : s.toList.getLast? = some 'd' := by
    rw [← ht]
    have hmd : t ++ (".md".toList) = (t ++ ['.', 'm']) ++ ['d'] := by simp
    rw [hmd, List.getLast?_concat]
  have h2 : s.toList.getLast? = some '/' := by
    rw [← hu]
    have hsl : u ++ ("/".toList) = u ++ ['/'] := by simp
    rw [hsl, List.getLast?_concat]
  rw [h1] at h2
  exact absurd h2 (by decide)

/-- A string ending in `".md"` contains `".md"`. -/
theorem includes_md_of_endsWith_md {s : String}
    (h : jsEndsWith s ".md" = true) : jsIncludes s ".md" = true := by
  rw [jsEndsWith_iff] at h
  rw [jsIncludes_iff]
  exact h.isInfix

theorem endsWith_append_md (s : String) : jsEndsWith (s ++ ".md") ".md" = true := by
  rw [jsEndsWith_iff]
  exact ⟨s.toList, (toList_append s ".md").symm⟩

/-- A path that starts with `V ++ "/"` is distinct from `V`. -/
theorem ne_of_startsWith_slash {V C : String}
    (h : jsStartsWith C (V ++ "/") = true) : C ≠ V := by
  rw [jsStartsWith_iff] at h
  intro hCV
  subst hCV
  have hle := h.length_le
  rw [toList_append] at hle
  simp at hle

theorem length_append_slash (V : String) : (V ++ "/").length = V.length + 1 := by
  rw [String.length_append]
  exact rfl

theorem slash_length : ("/" : String).length = 1 := rfl

/-- Dropping `root.length + 1` characters of `root ++ "/" ++ rest` leaves
`rest`. -/
theorem relPath_append (root rest : String) :
    relPath root (root ++ "/" ++ rest) = rest := by
  unfold relPath jsSubstringFrom
  have h1 : (root ++ "/" ++ rest).toList = (root.toList ++ ['/']) ++ rest.toList := by
    simp [toList_append]
  have h2 : root.length + 1 = (root.toList ++ ['/']).length := by
    rw [List.length_append]
    exact rfl
  rw [h1, h2, List.drop_left]
  exact rfl

/-- The two revisions reload on an exact match of the (canonical, no
trailing slash) view identifier. -/
theorem matchRev1_self (V : String) : matchRev1 V V = true := by
  simp [matchRev1]

theorem matchRev2_self {V : String} (hV : jsEndsWith V "/" = false) :
    matchRev2 V V = true := by
  simp [matchRev2, stripTrailingSlash_eq_self hV]

/-- Any request path containing `".."` is rejected with 403 before any stat. -/
theorem handleRequest_forbidden_of_dotdot (root : String)
    (fs : String → Option FsKind) (P : String) (h : jsIncludes P ".." = true) :
    handleRequest root fs P = (.forbidden, []) := by
  simp [handleRequest, h]

/-! ### Claim theorems -/

/-- C5: for every (canonical, i.e. no trailing slash) view identifier `V`
and change event path `C`, if `C` equals `V` then both revisions' view-match
engines decide reload — the exact-match rule is evaluated first; in
particular `match("guide/intro.md", "guide/intro.md")` is true. -/
theorem exact_match_reloads (V C : String)
    (hV : jsEndsWith V "/" = false) (hC : C = V) :
    matchRev1 V C = true ∧ matchRev2 V C = true := by
  rw [hC]
  exact ⟨matchRev1_self V, matchRev2_self hV⟩

theorem exact_match_reloads_witness :
    jsEndsWith "guide/intro.md" "/" = false ∧
      (matchRev1 "guide/intro.md" "guide/intro.md" = true ∧
        matchRev2 "guide/intro.md" "guide/intro.md" = true) :=
  ⟨by decide, exact_match_reloads "guide/intro.md" "guide/intro.md" (by decide) rfl⟩

/-- C6: a viewer whose view identifier names a markdown file (ends in
`".md"`) never gets a containment reload from revision 2's engine: any
changed path other than the viewed file itself — in particular a different
file of the same directory — yields no reload;
`match("guide/intro.md", "guide/other.md")` is false. -/
theorem markdown_view_exact_only (V C : String)
    (hmd : jsEndsWith V ".md" = true) (hne : C ≠ V) :
    matchRev2 V C = false := by
  have hslash : jsEndsWith V "/" = false := not_endsWith_slash_of_endsWith_md hmd
  have hinc : jsIncludes V ".md" = true := includes_md_of_endsWith_md hmd
  have hbeq : (C == V) = false := by simp [hne]
  simp [matchRev2, stripTrailingSlash_eq_self hslash, hbeq, hinc]

theorem markdown_view_exact_only_witness :
    jsEndsWith "guide/intro.md" ".md" = true ∧
      matchRev2 "guide/intro.md" "guide/other.md" = false :=
  ⟨by decide,
    markdown_view_exact_only "guide/intro.md" "guide/other.md" (by decide) (by decide)⟩

/-- C2 counterexample: in revision 2 the root viewer reloads on
`"guide/intro.md"` although that path is neither an exact match (it is not
`""`) nor top-level (it contains a slash) — the revision-2 handler computes
an empty containment marker at the root, which every path starts with, so
the stated "if and only if" fails on the cited revision-2 code. -/
theorem root_match_iff_cex :
    matchRev2 "" "guide/intro.md" = true ∧
      ("guide/intro.md" : String) ≠ "" ∧
      jsIncludes "guide/intro.md" "/" = true := by
  decide

/-- C2 amended: in revision 1 a root viewer reloads exactly on an exact
match or a top-level changed path (one containing no slash); in revision 2
a root viewer reloads on every change event whatsoever. -/
theorem root_match_amended (C : String) :
    (matchRev1 "" C = true ↔ (C = "" ∨ jsIncludes C "/" = false)) ∧
      matchRev2 "" C = true := by
  have hstrip : stripTrailingSlash "" = "" := by decide
  have hmd : jsIncludes "" ".md" = false := by decide
  constructor
  · by_cases hC : C = ""
    · subst hC
      simp [matchRev1]
    · have hbeq : (C == "") = false := by simp [hC]
      simp [matchRev1, hbeq, hC]
  · by_cases hC : C = ""
    · subst hC
      decide
    · have hbeq : (C == "") = false := by simp [hC]
      simp [matchRev2, hstrip, hbeq, hmd, jsStartsWith_empty]

/-- C1 counterexample: revision 1's engine does not reload a viewer of the
directory listing `"guide"` for the deep descendant change
`"guide/sub/deep.md"` — it reloads only for direct children — so the claim
fails on the cited revision-1 code. -/
theorem deep_descendant_cex : matchRev1 "guide" "guide/sub/deep.md" = false := by
  decide

/-- C1 amended: for a directory-listing view identifier `V` (canonical, and
not containing `".md"`) and any changed path starting with `V ++ "/"`,
revision 2's engine decides reload regardless of depth; revision 1's engine
(for a non-root directory) decides reload exactly when the changed path is a
direct child, i.e. when the remainder after `V ++ "/"` contains no further
slash — so `match("guide", "guide/sub/deep.md")` is true in revision 2 but
false in revision 1. -/
theorem deep_descendant_amended (V C : String)
    (hslash : jsEndsWith V "/" = false)
    (hmd : jsIncludes V ".md" = false)
    (hsw : jsStartsWith C (V ++ "/") = true) :
    matchRev2 V C = true ∧
      (V ≠ "" →
        (matchRev1 V C = true ↔
          jsIncludes (jsSubstringFrom C (V.length + 1)) "/" = false)) := by
  have hne : C ≠ V := ne_of_startsWith_slash hsw
  have hbeq : (C == V) = false := by simp [hne]
  constructor
  · by_cases hV : V = ""
    · subst hV
      simp [matchRev2, stripTrailingSlash_eq_self hslash, hbeq, hmd,
        jsStartsWith_empty]
    · have hVbeq : (V == "") = false := by simp [hV]
      simp [matchRev2, stripTrailingSlash_eq_self hslash, hbeq, hmd, hVbeq, hsw]
  · intro hV
    have hVbeq : (V == "") = false := by simp [hV]
    simp [matchRev1, hbeq, hVbeq, hsw, length_append_slash, slash_length]

theorem deep_descendant_amended_witness :
    matchRev2 "guide" "guide/sub/deep.md" = true ∧
      (("guide" : String) ≠ "" →
        (matchRev1 "guide" "guide/sub/deep.md" = true ↔
          jsIncludes (jsSubstringFrom "guide/sub/deep.md" ("guide".length + 1))
            "/" = false)) :=
  deep_descendant_amended "guide" "guide/sub/deep.md" (by decide) (by decide)
    (by decide)

/-- C9 counterexample: the client-side reload predicates embedded by the two
revisions of `generateHtml` are not extensionally equal — they disagree at
the pair (`"guide"`, `"guide/sub/deep.md"`). -/
theorem engines_equal_cex :
    matchRev1 "guide" "guide/sub/deep.md" ≠
      matchRev2 "guide" "guide/sub/deep.md" := by
  decide

/-- C9 amended: the two revisions' reload predicates agree on every
exact-match input (equal view identifier and changed path, canonical view
identifier), but they are not extensionally equal. -/
theorem engines_agree_amended :
    (∀ V C : String, jsEndsWith V "/" = false → C = V →
        matchRev1 V C = matchRev2 V C) ∧
      ¬(∀ V C : String, matchRev1 V C = matchRev2 V C) := by
  constructor
  · intro V C hV hC
    rw [hC, matchRev1_self V, matchRev2_self hV]
  · intro hall
    exact absurd (hall "guide" "guide/sub/deep.md") (by decide)

theorem engines_agree_amended_witness :
    matchRev1 "guide" "guide" = matchRev2 "guide" "guide" :=
  engines_agree_amended.1 "guide" "guide" (by decide) rfl

/-- C3 counterexample: revision 1's watcher handler forwards none of the
directory events — `addDir` (directory creation) and `unlinkDir` (directory
deletion) produce no notification — so the claim fails on the cited
revision-1 code. -/
theorem watcher_kinds_cex :
    watcherEmitRev1 "/docs" "addDir" "/docs/newdir" = none ∧
      watcherEmitRev1 "/docs" "unlinkDir" "/docs/olddir" = none := by
  decide

/-- C3 amended: revision 2's watcher emits a notification for each of the
five event kinds (`change`, `add`, `unlink`, `addDir`, `unlinkDir`),
carrying the path relative to the root in forward-slash form; revision 1's
watcher does so only for the three file event kinds (`change`, `add`,
`unlink`) and stays silent on directory creation and deletion. -/
theorem watcher_kinds_amended :
    (∀ root rest event : String,
        (event = "change" ∨ event = "add" ∨ event = "unlink"
          ∨ event = "addDir" ∨ event = "unlinkDir") →
        watcherEmitRev2 root event (root ++ "/" ++ rest) =
          some { path := rest, event := event }) ∧
      (∀ root rest event : String,
        (event = "change" ∨ event = "add" ∨ event = "unlink") →
        watcherEmitRev1 root event (root ++ "/" ++ rest) =
          some { path := rest, event := event }) ∧
      (∀ root fp : String,
        watcherEmitRev1 root "addDir" fp = none ∧
          watcherEmitRev1 root "unlinkDir" fp = none) := by
  refine ⟨?_, ?_, ?_⟩
  · intro root rest event hev
    rcases hev with h | h | h | h | h <;>
      simp [watcherEmitRev2, h, relPath_append]
  · intro root rest event hev
    rcases hev with h | h | h <;>
      simp [watcherEmitRev1, h, relPath_append]
  · intro root fp
    constructor <;> simp [watcherEmitRev1]

theorem watcher_kinds_amended_witness :
    watcherEmitRev2 "/docs" "addDir" ("/docs" ++ "/" ++ "guide/sub") =
      some { path := "guide/sub", event := "addDir" } :=
  watcher_kinds_amended.1 "/docs" "guide/sub" "addDir"
    (Or.inr (Or.inr (Or.inr (Or.inl rfl))))

/-- C4 counterexample: the message actually broadcast is keyed `"type"`,
not `"kind"`: for the change event `("change", "a.md")` the only message an
open client receives is the JSON text with key sequence `type`, `path`,
`event`, which contains no `"kind"` key — so the claim's message shape
`\x7b kind: "update", ... \x7d` fails on the cited code of both
revisions. -/
theorem fan_out_kind_key_cex :
    deliverUpdate [{ readyState := ReadyState.OPEN }] "a.md" "change" =
        [some "\x7b\"type\":\"update\",\"path\":\"a.md\",\"event\":\"change\"\x7d"] ∧
      jsIncludes (serializeUpdate "a.md" "change") "\"kind\"" = false ∧
      jsIncludes (serializeUpdate "a.md" "change") "\"type\":\"update\"" = true := by
  decide

/-- C4 amended: on each change event the fan-out hands every connected
client in `OPEN` ready state exactly the serialized JSON message
`\x7b "type": "update", "path": <relative path>, "event": <event kind> \x7d`
(in that key order), and silently skips — no error, no retry — every client
in any other ready state; the serialized message always begins with the
`"type":"update"` header. -/
theorem fan_out_delivery_amended (clients : List Client)
    (relativePath event : String) (i : Nat) :
    (deliverUpdate clients relativePath event).length = clients.length ∧
      (deliverUpdate clients relativePath event)[i]? =
        (clients[i]?).map (fun c =>
          if c.readyState = ReadyState.OPEN then
            some (serializeUpdate relativePath event)
          else
            none) ∧
      jsStartsWith (serializeUpdate relativePath event)
        "\x7b\"type\":\"update\",\"path\":\"" = true := by
  refine ⟨by simp [deliverUpdate], ?_, ?_⟩
  · simp [deliverUpdate]
  · rw [jsStartsWith_iff]
    exact ⟨(relativePath ++ ("\",\"event\":\"" ++ (event ++ "\"\x7d"))).toList,
      by simp [serializeUpdate, toList_append]⟩

/-- C7: a request path containing a parent-directory segment — `".."`
bounded by a path separator or an end of the string on either side — is
rejected with 403 (`Outcome.forbidden`) before any filesystem stat, for
every filesystem whatsoever, so no target outside the served root is ever
read.  The path is presented as `seg1 ++ ".." ++ seg2` with `seg1` empty or
slash-terminated and `seg2` empty or slash-initial. -/
theorem traversal_forbidden (root : String) (fs : String → Option FsKind)
    (seg1 seg2 : String)
    (h1 : seg1 = "" ∨ jsEndsWith seg1 "/" = true)
    (h2 : seg2 = "" ∨ jsStartsWith seg2 "/" = true) :
    handleRequest root fs (seg1 ++ ".." ++ seg2) = (.forbidden, []) := by
  apply handleRequest_forbidden_of_dotdot
  rw [jsIncludes_iff]
  refine ⟨seg1.toList, seg2.toList, ?_⟩
  simp [toList_append]

theorem traversal_forbidden_witness :
    handleRequest "/docs" (fun _ => none) ("/" ++ ".." ++ "/secret.txt") =
      (.forbidden, []) :=
  traversal_forbidden "/docs" (fun _ => none) "/" "/secret.txt"
    (Or.inr (by decide)) (Or.inr (by decide))

/-- C10: the request handler rejects with 403 every decoded request path
containing the two-character substring `".."` anywhere — including paths
such as `/notes..md` that contain no parent-directory segment — without
consulting the filesystem, so such files under the served root are never
servable under any filesystem state. -/
theorem dotdot_substring_forbidden (root : String)
    (fs : String → Option FsKind) (P : String)
    (h : jsIncludes P ".." = true) :
    handleRequest root fs P = (.forbidden, []) :=
  handleRequest_forbidden_of_dotdot root fs P h

theorem dotdot_substring_forbidden_witness :
    handleRequest "/docs"
        (fun p => if p = "/docs/notes..md" then some FsKind.file else none)
        "/notes..md" =
      (.forbidden, []) :=
  dotdot_substring_forbidden "/docs"
    (fun p => if p = "/docs/notes..md" then some FsKind.file else none)
    "/notes..md" (by decide)

/-- C8: when the joined candidate path does not exist and does not already
end in `".md"`, the handler retries `candidate ++ ".md"`; if that exists as
a file, the request is served as that markdown file's rendered content,
with the `.md` path's root-relative form as the view identifier, after
statting exactly the candidate and its `.md` variant. -/
theorem md_fallback (root : String) (fs : String → Option FsKind) (P : String)
    (hdd : jsIncludes P ".." = false)
    (hmiss : fs (pathJoin root P) = none)
    (hmd : jsEndsWith (pathJoin root P) ".md" = false)
    (hhit : fs (pathJoin root P ++ ".md") = some FsKind.file) :
    handleRequest root fs P =
      (.markdownView (pathJoin root P ++ ".md")
          (relPath root (pathJoin root P ++ ".md")),
        [pathJoin root P, pathJoin root P ++ ".md"]) := by
  simp [handleRequest, hdd, hmiss, hmd, hhit, serveTarget, endsWith_append_md]

/-- Requesting `/notes` over a filesystem where only `/docs/notes.md`
exists serves the rendered `notes.md` with view identifier `"notes.md"`. -/
theorem md_fallback_witness :
    handleRequest "/docs"
        (fun p => if p = "/docs/notes.md" then some FsKind.file else none)
        "/notes" =
      (.markdownView "/docs/notes.md" "notes.md",
        ["/docs/notes", "/docs/notes.md"]) := by
  have h := md_fallback "/docs"
    (fun p => if p = "/docs/notes.md" then some FsKind.file else none)
    "/notes" (by decide) (by decide) (by decide) (by decide)
  exact h.trans (by decide)

end Soylatte
